import Mathlib

/-!
Shallow embedding of the `FeatureFlagProvider` class from
`src/vscode/src/commands/services/provider.ts` (lines 214-273).

The provider keeps a per-endpoint cache of remotely evaluated boolean
feature flags:

  private featureFlags: Record<string, Record<string, boolean>> = {}
  private lastUpdated = 0

and four operations: `getFromCache`, `getExposedExperiments`,
`evaluateFeatureFlag`, `syncAuthStatus`, with the private helper
`refreshFeatureFlags`.

JavaScript `Record<string, _>` objects are embedded as association lists
with replace-or-append assignment, mirroring `obj[k] = v` and `obj[k]`
property access.  `Date.now()` values are passed in as explicit `Nat`
arguments.  The external collaborators are modelled as data:

  * the `SourcegraphGraphQLAPIClient` (`endpoint` property,
    `evaluateFeatureFlag` returning `boolean | null | Error` or rejecting,
    `getEvaluatedFeatureFlags` returning `Record<string,boolean> | Error`
    or rejecting);
  * `process.env.BENCHMARK_DISABLE_FEATURE_FLAGS` as a `Bool` argument;
  * `wrapInActiveSpan`, which per its contract propagates the wrapped
    operation's return value and error unchanged, is embedded as the
    identity on behaviour.

An `async` method body runs synchronously up to its first `await`; the
source captures `const endpoint = this.apiClient.endpoint` before the
`await` in `refreshFeatureFlags`, so the write-back after the fetch is
modelled by `refreshLand`, which takes that captured endpoint as an
argument together with the state at landing time.
-/

/-- JS object property access `obj[k]`: the value stored under the first
(and, with `insertA`, only) occurrence of key `k`. -/
def lookupA {α : Type} (xs : List (String × α)) (k : String) : Option α :=
  match xs with
  | [] => none
  | (k2, v) :: rest => if k2 = k then some v else lookupA rest k

/-- JS object property assignment `obj[k] = v`: replace the binding of `k`
if present, otherwise append it. -/
def insertA {α : Type} (xs : List (String × α)) (k : String) (v : α) : List (String × α) :=
  match xs with
  | [] => [(k, v)]
  | (k2, v2) :: rest => if k2 = k then (k2, v) :: rest else (k2, v2) :: insertA rest k v

/-- The mutable state of `FeatureFlagProvider`: the two private fields
`featureFlags` (endpoint, then flag name, to boolean) and `lastUpdated`. -/
structure FlagState where
  featureFlags : List (String × List (String × Bool))
  lastUpdated : Nat
deriving Repr, DecidableEq

/-- Outcome of `apiClient.evaluateFeatureFlag(flagName)`: a boolean, `null`,
an `Error` value (in the `isError` sense), or a rejected promise. -/
inductive EvalOneResult where
  | val (b : Bool)
  | nullRes
  | errRes
  | thrown
deriving Repr, DecidableEq

/-- Outcome of `apiClient.getEvaluatedFeatureFlags()`: a flag mapping, an
`Error` value, or a rejected promise. -/
inductive BulkResult where
  | data (m : List (String × Bool))
  | errRes
  | thrown
deriving Repr, DecidableEq

/-- The `SourcegraphGraphQLAPIClient` collaborator as seen by the provider:
its `endpoint` property and the outcomes of its two remote calls. -/
structure ApiClient where
  endpoint : String
  evalOne : String → EvalOneResult
  bulk : BulkResult

/-- `const ONE_HOUR = 60 * 60 * 1000` (milliseconds). -/
def ONE_HOUR : Nat := 60 * 60 * 1000

/-- The read expression `this.featureFlags[endpoint]?.[flagName]`. -/
def readCache (st : FlagState) (endpoint flagName : String) : Option Bool :=
  match lookupA st.featureFlags endpoint with
  | none => none
  | some m => lookupA m flagName

/-- The staleness test in `getFromCache`:
`now - this.lastUpdated > ONE_HOUR` (truncated subtraction agrees with the
JS comparison: when `lastUpdated > now` both sides are false). -/
def refreshDue (st : FlagState) (now : Nat) : Bool :=
  decide (now - st.lastUpdated > ONE_HOUR)

/-- What `getFromCache` gives back: the returned value, plus whether the
fire-and-forget `void this.refreshFeatureFlags()` was triggered.  The
triggered refresh has not landed yet when the value is returned, and the
method itself mutates nothing. -/
structure GetFromCacheResult where
  value : Option Bool
  refreshTriggered : Bool
deriving Repr, DecidableEq

/-- `getFromCache(flagName, endpoint)` with the endpoint argument made
explicit (the source defaults it to `this.apiClient.endpoint`). -/
def getFromCache (st : FlagState) (now : Nat) (flagName endpoint : String) :
    GetFromCacheResult :=
  { value := readCache st endpoint flagName
    refreshTriggered := refreshDue st now }

/-- `getFromCache(flagName)` with the defaulted endpoint
`this.apiClient.endpoint`. -/
def getFromCacheDefault (st : FlagState) (api : ApiClient) (now : Nat)
    (flagName : String) : GetFromCacheResult :=
  getFromCache st now flagName api.endpoint

/-- `getExposedExperiments(endpoint)`:
`this.featureFlags[endpoint] || {}`. -/
def getExposedExperiments (st : FlagState) (endpoint : String) :
    List (String × Bool) :=
  (lookupA st.featureFlags endpoint).getD []

/-- Result of an async state-mutating provider method: the state when the
promise settles, and whether it rejected (`threw = true` means an uncaught
error propagated to the awaiting caller). -/
structure RefreshResult where
  state : FlagState
  threw : Bool
deriving Repr, DecidableEq

/-- The continuation of `refreshFeatureFlags` after
`await this.apiClient.getEvaluatedFeatureFlags()` resolves: with `endpoint`
the value captured before the `await`, it executes
`this.featureFlags[endpoint] = isError(data) ? {} : data` and
`this.lastUpdated = Date.now()`.  A rejected fetch is not caught anywhere
in the method, so neither assignment runs and the rejection propagates. -/
def refreshLand (st : FlagState) (endpoint : String) (r : BulkResult)
    (now : Nat) : RefreshResult :=
  match r with
  | .thrown => { state := st, threw := true }
  | .errRes =>
      { state := { featureFlags := insertA st.featureFlags endpoint []
                   lastUpdated := now }
        threw := false }
  | .data m =>
      { state := { featureFlags := insertA st.featureFlags endpoint m
                   lastUpdated := now }
        threw := false }

/-- `refreshFeatureFlags()` run to completion with no interleaving: the
endpoint captured at start is the client's current endpoint and the state
at landing time is the state at start. -/
def refreshFeatureFlags (st : FlagState) (api : ApiClient) (now : Nat) :
    RefreshResult :=
  refreshLand st api.endpoint api.bulk now

/-- `syncAuthStatus()`: `this.featureFlags = {}` followed by
`await this.refreshFeatureFlags()`. -/
def syncAuthStatus (st : FlagState) (api : ApiClient) (now : Nat) :
    RefreshResult :=
  refreshFeatureFlags { featureFlags := [], lastUpdated := st.lastUpdated }
    api now

/-- The bulk mapping that a completed (non-rejected) refresh stores for its
endpoint: the fetched data, or `{}` for an `Error` value. -/
def bulkData : BulkResult → List (String × Bool)
  | .data m => m
  | .errRes => []
  | .thrown => []

/-- Result of `evaluateFeatureFlag(flagName)`: the state when the promise
settles, the resolved value (`none` when it rejected), and observations of
the control flow — whether the single-flag remote call was made, whether
the cache was consulted (`getFromCache` invoked), and whether that cache
read triggered a background bulk refresh. -/
structure EvalResult where
  state : FlagState
  value : Option Bool
  threw : Bool
  remoteInvoked : Bool
  cacheRead : Bool
  refreshTriggered : Bool
deriving Repr, DecidableEq

/-- The tail of `evaluateFeatureFlag` after the awaited single-flag call
resolves with the boolean `b` to store (`value === null || isError(value)
? false : value`): `if (!this.featureFlags[endpoint])
this.featureFlags[endpoint] = {}` then
`this.featureFlags[endpoint][flagName] = b` and
`return this.featureFlags[endpoint][flagName]` (which reads back `b`). -/
def evalStore (st : FlagState) (api : ApiClient) (flagName : String)
    (triggered : Bool) (b : Bool) : EvalResult :=
  let m := (lookupA st.featureFlags api.endpoint).getD []
  { state :=
      { st with featureFlags :=
          insertA st.featureFlags api.endpoint (insertA m flagName b) }
    value := some b, threw := false, remoteInvoked := true
    cacheRead := true, refreshTriggered := triggered }

/-- `evaluateFeatureFlag(flagName)`.  The body (inside the pass-through
`wrapInActiveSpan`) reads `this.apiClient.endpoint`, short-circuits to
`false` when `process.env.BENCHMARK_DISABLE_FEATURE_FLAGS` is set, then
consults `getFromCache`; on a cache miss it awaits the remote single-flag
evaluation, stores `value === null || isError(value) ? false : value`
under `(endpoint, flagName)`, and returns the stored value.  A rejected
remote call is not caught and propagates. -/
def evaluateFeatureFlag (st : FlagState) (api : ApiClient)
    (killSwitch : Bool) (now : Nat) (flagName : String) : EvalResult :=
  if killSwitch then
    { state := st, value := some false, threw := false
      remoteInvoked := false, cacheRead := false, refreshTriggered := false }
  else
    let cached := getFromCache st now flagName api.endpoint
    match cached.value with
    | some v =>
        { state := st, value := some v, threw := false
          remoteInvoked := false, cacheRead := true
          refreshTriggered := cached.refreshTriggered }
    | none =>
        match api.evalOne flagName with
        | .thrown =>
            { state := st, value := none, threw := true
              remoteInvoked := true, cacheRead := true
              refreshTriggered := cached.refreshTriggered }
        | .val b2 => evalStore st api flagName cached.refreshTriggered b2
        | .nullRes => evalStore st api flagName cached.refreshTriggered false
        | .errRes => evalStore st api flagName cached.refreshTriggered false

/-- One call to `evaluateFeatureFlag`, for iterating sequences of calls. -/
structure EvalCall where
  api : ApiClient
  killSwitch : Bool
  now : Nat
  flagName : String

/-- The state after a sequence of completed `evaluateFeatureFlag` calls. -/
def evalMany (st : FlagState) (calls : List EvalCall) : FlagState :=
  match calls with
  | [] => st
  | c :: rest =>
      evalMany (evaluateFeatureFlag st c.api c.killSwitch c.now c.flagName).state
        rest

/-- Number of background bulk fetches fired by a sequence of `getFromCache`
calls at the given times, with no intervening write to the state (the
method itself mutates nothing, so the state is the same at every call). -/
def countTriggeredRefreshes (st : FlagState) (api : ApiClient)
    (flagName : String) (times : List Nat) : Nat :=
  match times with
  | [] => 0
  | t :: rest =>
      (if (getFromCacheDefault st api t flagName).refreshTriggered then 1 else 0) +
        countTriggeredRefreshes st api flagName rest

section Fixtures

/-- The provider's initial state: `featureFlags = {}` and `lastUpdated = 0`. -/
def st0 : FlagState := { featureFlags := [], lastUpdated := 0 }

/-- A state with one cached entry under endpoint `https://a` and a
`lastUpdated` of 5 ms. -/
def stStale : FlagState :=
  { featureFlags := [("https://a", [("f", true)])], lastUpdated := 5 }

/-- A client whose remote calls all reject (the promises throw). -/
def apiThrow : ApiClient :=
  { endpoint := "https://a", evalOne := fun _ => .thrown, bulk := .thrown }

/-- A client at `https://a` whose single-flag evaluation resolves `true`
and whose bulk fetch resolves a mapping holding only `other-flag`. -/
def apiA : ApiClient :=
  { endpoint := "https://a", evalOne := fun _ => .val true
    bulk := .data [("other-flag", true)] }

/-- A client at `https://a` whose single-flag evaluation resolves `true`
but whose bulk fetch resolves an `Error` value. -/
def apiAerr : ApiClient :=
  { endpoint := "https://a", evalOne := fun _ => .val true, bulk := .errRes }

/-- A client at `https://a` whose single-flag evaluation resolves to an
`Error` value and whose bulk fetch resolves an empty mapping. -/
def apiAone : ApiClient :=
  { endpoint := "https://a", evalOne := fun _ => .errRes, bulk := .data [] }

/-- A client at `https://b`. -/
def apiB : ApiClient :=
  { endpoint := "https://b", evalOne := fun _ => .val false
    bulk := .data [("g", false)] }

end Fixtures

section Lemmas

/-- Reading back the key just assigned gives the assigned value. -/
theorem lookupA_insertA_self {α : Type} (xs : List (String × α)) (k : String)
    (v : α) : lookupA (insertA xs k v) k = some v := by
  induction xs with
  | nil => simp [insertA, lookupA]
  | cons hd tl ih =>
      obtain ⟨k2, v2⟩ := hd
      by_cases h : k2 = k
      · simp [insertA, lookupA, h]
      · simp [insertA, lookupA, h, ih]

/-- Assigning one key leaves every other key's binding unchanged. -/
theorem lookupA_insertA_ne {α : Type} (xs : List (String × α)) (k k2 : String)
    (v : α) (h : k ≠ k2) : lookupA (insertA xs k v) k2 = lookupA xs k2 := by
  induction xs with
  | nil => simp [insertA, lookupA, h]
  | cons hd tl ih =>
      obtain ⟨k3, v3⟩ := hd
      by_cases h3 : k3 = k
      · subst h3
        simp [insertA, lookupA, h]
      · simp [insertA, lookupA, h3, ih]

end Lemmas

section StepLemmas

/-- `evaluateFeatureFlag` never touches entries of endpoints other than the
client's current one. -/
theorem readCache_evaluate_other_endpoint (st : FlagState) (api : ApiClient)
    (kill : Bool) (now : Nat) (flagName e f : String) (h : api.endpoint ≠ e) :
    readCache (evaluateFeatureFlag st api kill now flagName).state e f =
      readCache st e f := by
  unfold evaluateFeatureFlag
  split
  · rfl
  · dsimp only [getFromCache]
    cases hv : readCache st api.endpoint flagName with
    | some v => rfl
    | none =>
        cases hr : api.evalOne flagName with
        | thrown => rfl
        | val b2 => simp [evalStore, readCache, lookupA_insertA_ne _ _ _ _ h]
        | nullRes => simp [evalStore, readCache, lookupA_insertA_ne _ _ _ _ h]
        | errRes => simp [evalStore, readCache, lookupA_insertA_ne _ _ _ _ h]

/-- `evaluateFeatureFlag` never unpopulates or changes an already cached
entry: it only returns cached values, or writes into a slot that was
uncached at call time. -/
theorem readCache_evaluate_preserved (st : FlagState) (api : ApiClient)
    (kill : Bool) (now : Nat) (flagName e f : String) (v : Bool)
    (h : readCache st e f = some v) :
    readCache (evaluateFeatureFlag st api kill now flagName).state e f =
      some v := by
  by_cases he : api.endpoint = e
  · subst he
    unfold evaluateFeatureFlag
    split
    · exact h
    · dsimp only [getFromCache]
      cases hv : readCache st api.endpoint flagName with
      | some w => exact h
      | none =>
          have hf : flagName ≠ f := by
            intro hh
            rw [hh] at hv
            rw [hv] at h
            exact Option.noConfusion h
          have hm : lookupA ((lookupA st.featureFlags api.endpoint).getD [])
              f = some v := by
            unfold readCache at h
            cases hfa : lookupA st.featureFlags api.endpoint with
            | none => rw [hfa] at h; exact Option.noConfusion h
            | some m => rw [hfa] at h; simpa [hfa] using h
          cases hr : api.evalOne flagName with
          | thrown => exact h
          | val b2 =>
              simp [evalStore, readCache, lookupA_insertA_self,
                lookupA_insertA_ne _ _ _ _ hf, hm]
          | nullRes =>
              simp [evalStore, readCache, lookupA_insertA_self,
                lookupA_insertA_ne _ _ _ _ hf, hm]
          | errRes =>
              simp [evalStore, readCache, lookupA_insertA_self,
                lookupA_insertA_ne _ _ _ _ hf, hm]
  · rw [readCache_evaluate_other_endpoint st api kill now flagName e f he]
    exact h

/-- Populated entries survive any sequence of completed
`evaluateFeatureFlag` calls. -/
theorem readCache_evalMany_preserved (calls : List EvalCall) (st : FlagState)
    (e f : String) (v : Bool) (h : readCache st e f = some v) :
    readCache (evalMany st calls) e f = some v := by
  induction calls generalizing st with
  | nil => exact h
  | cons c rest ih =>
      exact ih _ (readCache_evaluate_preserved st c.api c.killSwitch c.now
        c.flagName e f v h)

/-- A completed `refreshFeatureFlags` only rewrites the mapping of the
endpoint it captured at start. -/
theorem readCache_refreshLand_other (st : FlagState) (endpoint e f : String)
    (r : BulkResult) (now : Nat) (h : endpoint ≠ e) :
    readCache (refreshLand st endpoint r now).state e f = readCache st e f := by
  cases r with
  | thrown => rfl
  | errRes => simp [refreshLand, readCache, lookupA_insertA_ne _ _ _ _ h]
  | data m => simp [refreshLand, readCache, lookupA_insertA_ne _ _ _ _ h]

/-- Same as `readCache_refreshLand_other`, for whole exposed mappings. -/
theorem getExposedExperiments_refreshLand_other (st : FlagState)
    (endpoint e : String) (r : BulkResult) (now : Nat) (h : endpoint ≠ e) :
    getExposedExperiments (refreshLand st endpoint r now).state e =
      getExposedExperiments st e := by
  cases r with
  | thrown => rfl
  | errRes =>
      simp [refreshLand, getExposedExperiments, lookupA_insertA_ne _ _ _ _ h]
  | data m =>
      simp [refreshLand, getExposedExperiments, lookupA_insertA_ne _ _ _ _ h]

end StepLemmas

section ClaimsConfirmedA

/-- C1: after `syncAuthStatus()` resolves, the flag table holds exactly the
one mapping the bulk fetch produced for the current endpoint; every entry
previously cached under any endpoint is gone, and `getExposedExperiments`
and `getFromCache` against any other endpoint see nothing, while reads
against the current endpoint see only the freshly fetched mapping. -/
theorem C1_syncAuthStatus_hard_reset (st : FlagState) (api : ApiClient)
    (now : Nat) (h : (syncAuthStatus st api now).threw = false) :
    (syncAuthStatus st api now).state.featureFlags =
      [(api.endpoint, bulkData api.bulk)] ∧
    (∀ e, e ≠ api.endpoint →
      getExposedExperiments (syncAuthStatus st api now).state e = []) ∧
    (∀ e f, e ≠ api.endpoint →
      readCache (syncAuthStatus st api now).state e f = none) ∧
    (∀ f, readCache (syncAuthStatus st api now).state api.endpoint f =
      lookupA (bulkData api.bulk) f) := by
  cases hb : api.bulk with
  | thrown =>
      exfalso
      simp [syncAuthStatus, refreshFeatureFlags, refreshLand, hb] at h
  | errRes =>
      refine ⟨?_, ?_, ?_, ?_⟩
      · simp [syncAuthStatus, refreshFeatureFlags, refreshLand, hb, bulkData,
          insertA]
      · intro e he
        simp [syncAuthStatus, refreshFeatureFlags, refreshLand, hb,
          getExposedExperiments, insertA, lookupA, Ne.symm he]
      · intro e f he
        simp [syncAuthStatus, refreshFeatureFlags, refreshLand, hb, readCache,
          insertA, lookupA, Ne.symm he]
      · intro f
        simp [syncAuthStatus, refreshFeatureFlags, refreshLand, hb, bulkData,
          readCache, insertA, lookupA]
  | data m =>
      refine ⟨?_, ?_, ?_, ?_⟩
      · simp [syncAuthStatus, refreshFeatureFlags, refreshLand, hb, bulkData,
          insertA]
      · intro e he
        simp [syncAuthStatus, refreshFeatureFlags, refreshLand, hb,
          getExposedExperiments, insertA, lookupA, Ne.symm he]
      · intro e f he
        simp [syncAuthStatus, refreshFeatureFlags, refreshLand, hb, readCache,
          insertA, lookupA, Ne.symm he]
      · intro f
        simp [syncAuthStatus, refreshFeatureFlags, refreshLand, hb, bulkData,
          readCache, insertA, lookupA]

/-- C1 witness: a concrete reset from a state with stale data under
`https://a`; afterwards a foreign endpoint reads nothing. -/
theorem C1_witness :
    (syncAuthStatus stStale apiA 7).threw = false ∧
    readCache (syncAuthStatus stStale apiA 7).state "https://z" "f" = none ∧
    readCache (syncAuthStatus stStale apiA 7).state apiA.endpoint "f" =
      lookupA (bulkData apiA.bulk) "f" :=
  ⟨by decide,
    (C1_syncAuthStatus_hard_reset stStale apiA 7 (by decide)).2.2.1
      "https://z" "f" (by decide),
    (C1_syncAuthStatus_hard_reset stStale apiA 7 (by decide)).2.2.2 "f"⟩

/-- C2: the cache is partitioned by endpoint.  A completed
`evaluateFeatureFlag` or `refreshFeatureFlags` for the current endpoint
never changes what is cached under a different endpoint `e1`, and a
`getFromCache` read with the explicit endpoint `e1` returns exactly what
is stored under `e1` — independently of which endpoint is current, since
changing the current endpoint alone touches no state. -/
theorem C2_endpoint_partition (st : FlagState) (api : ApiClient) (kill : Bool)
    (now t2 : Nat) (flagName f e1 : String) (h : e1 ≠ api.endpoint) :
    readCache (evaluateFeatureFlag st api kill now flagName).state e1 f =
      readCache st e1 f ∧
    readCache (refreshFeatureFlags st api now).state e1 f =
      readCache st e1 f ∧
    getExposedExperiments (refreshFeatureFlags st api now).state e1 =
      getExposedExperiments st e1 ∧
    (getFromCache st t2 f e1).value = readCache st e1 f := by
  refine ⟨?_, ?_, ?_, rfl⟩
  · exact readCache_evaluate_other_endpoint st api kill now flagName e1 f
      (Ne.symm h)
  · exact readCache_refreshLand_other st api.endpoint e1 f api.bulk now
      (Ne.symm h)
  · exact getExposedExperiments_refreshLand_other st api.endpoint e1 api.bulk
      now (Ne.symm h)

/-- C2 witness: evaluate and refresh against current endpoint `https://a`
leave endpoint `https://b` untouched; the read of the spec's end-to-end
scenario — cache `cody-pro-jetbrains` under `https://a`, switch the
current endpoint to `https://b`, read explicitly against `https://a` —
still finds the stored value. -/
theorem C2_witness :
    (readCache (evaluateFeatureFlag stStale apiB false 3 "f").state
        "https://a" "f" = readCache stStale "https://a" "f" ∧
      readCache (refreshFeatureFlags stStale apiB 3).state "https://a" "f" =
        readCache stStale "https://a" "f" ∧
      getExposedExperiments (refreshFeatureFlags stStale apiB 3).state
        "https://a" = getExposedExperiments stStale "https://a" ∧
      (getFromCache stStale 3 "f" "https://a").value =
        readCache stStale "https://a" "f") ∧
    readCache stStale "https://a" "f" = some true :=
  ⟨C2_endpoint_partition stStale apiB false 3 3 "f" "f" "https://a"
      (by decide),
    by decide⟩

/-- C8: with `BENCHMARK_DISABLE_FEATURE_FLAGS` set, `evaluateFeatureFlag`
resolves `false` for every flag, in every state, and never invokes the
remote evaluator. -/
theorem C8_kill_switch_short_circuit (st : FlagState) (api : ApiClient)
    (now : Nat) (flagName : String) :
    (evaluateFeatureFlag st api true now flagName).value = some false ∧
    (evaluateFeatureFlag st api true now flagName).remoteInvoked = false ∧
    (evaluateFeatureFlag st api true now flagName).threw = false :=
  ⟨rfl, rfl, rfl⟩

/-- C10: with `BENCHMARK_DISABLE_FEATURE_FLAGS` set, `evaluateFeatureFlag`
is pure: the state (flag table and `lastUpdated`) is unchanged, the cache
is not consulted, no background refresh is triggered, and every later read
— including one that was `undefined` before — is unaffected. -/
theorem C10_kill_switch_frame (st : FlagState) (api : ApiClient) (now : Nat)
    (flagName : String) :
    (evaluateFeatureFlag st api true now flagName).state = st ∧
    (evaluateFeatureFlag st api true now flagName).state.lastUpdated =
      st.lastUpdated ∧
    (evaluateFeatureFlag st api true now flagName).cacheRead = false ∧
    (evaluateFeatureFlag st api true now flagName).refreshTriggered = false ∧
    (∀ e f t, (getFromCache (evaluateFeatureFlag st api true now
        flagName).state t f e).value = (getFromCache st t f e).value) ∧
    (∀ e, getExposedExperiments (evaluateFeatureFlag st api true now
        flagName).state e = getExposedExperiments st e) :=
  ⟨rfl, rfl, rfl, rfl, fun _ _ _ => rfl, fun _ => rfl⟩

end ClaimsConfirmedA

section ClaimsC3C5

/-- C3 counterexample: nothing in `evaluateFeatureFlag` catches a rejected
remote call, so with an evaluator whose single-flag promise rejects the
method rejects too instead of resolving `false`; `syncAuthStatus` likewise
re-throws a rejected bulk fetch. -/
theorem C3_counterexample :
    (evaluateFeatureFlag st0 apiThrow false 0 "test-flag-do-not-use").threw
      = true ∧
    (evaluateFeatureFlag st0 apiThrow false 0 "test-flag-do-not-use").value
      ≠ some false ∧
    (syncAuthStatus st0 apiThrow 0).threw = true := by
  refine ⟨by decide, by decide, by decide⟩

/-- C3 amended: when the remote single-flag call resolves to an `Error`
value or `null`, `evaluateFeatureFlag` resolves `false` and throws
nothing; but a rejected (thrown) remote call is not caught and propagates
to the caller. -/
theorem C3_error_absorption (st : FlagState) (api : ApiClient) (now : Nat)
    (flagName : String) (hc : readCache st api.endpoint flagName = none) :
    ((api.evalOne flagName = .errRes ∨ api.evalOne flagName = .nullRes) →
      (evaluateFeatureFlag st api false now flagName).value = some false ∧
      (evaluateFeatureFlag st api false now flagName).threw = false) ∧
    (api.evalOne flagName = .thrown →
      (evaluateFeatureFlag st api false now flagName).threw = true ∧
      (evaluateFeatureFlag st api false now flagName).value = none) := by
  refine ⟨fun h => ?_, fun h => ?_⟩
  · cases h with
    | inl h => simp [evaluateFeatureFlag, getFromCache, hc, h, evalStore]
    | inr h => simp [evaluateFeatureFlag, getFromCache, hc, h, evalStore]
  · simp [evaluateFeatureFlag, getFromCache, hc, h]

/-- C3 witness: a concrete cache miss whose remote call resolves an `Error`
value; the evaluation resolves `false` without throwing. -/
theorem C3_witness :
    readCache st0 apiAone.endpoint "f" = none ∧
    ((evaluateFeatureFlag st0 apiAone false 0 "f").value = some false ∧
      (evaluateFeatureFlag st0 apiAone false 0 "f").threw = false) :=
  ⟨by decide,
    (C3_error_absorption st0 apiAone 0 "f" (by decide)).1 (Or.inl rfl)⟩

/-- C5 counterexample: when the bulk fetch rejects, `refreshFeatureFlags`
leaves the state entirely unchanged — the stale mapping stays, and
`lastUpdated` does not advance, so the very next stale read triggers yet
another refresh (a refresh storm), contrary to the claim. -/
theorem C5_counterexample :
    (refreshFeatureFlags stStale apiThrow (ONE_HOUR + 100)).state = stStale ∧
    ¬ (getExposedExperiments (refreshFeatureFlags stStale apiThrow
          (ONE_HOUR + 100)).state "https://a" = [] ∧
        (refreshFeatureFlags stStale apiThrow
          (ONE_HOUR + 100)).state.lastUpdated = ONE_HOUR + 100) ∧
    (getFromCacheDefault (refreshFeatureFlags stStale apiThrow
        (ONE_HOUR + 100)).state apiThrow (ONE_HOUR + 200)
        "f").refreshTriggered = true := by
  refine ⟨by decide, by decide, by decide⟩

/-- C5 amended: when the bulk fetch resolves to an `Error` value, the
refresh completes, the endpoint's mapping becomes empty, `lastUpdated`
advances to now, and any read within the next hour triggers no further
refresh; when the bulk fetch rejects, the state is left untouched and the
rejection propagates. -/
theorem C5_bulk_failure (st : FlagState) (api : ApiClient) (now : Nat)
    (h : api.bulk = .errRes) :
    (refreshFeatureFlags st api now).threw = false ∧
    getExposedExperiments (refreshFeatureFlags st api now).state api.endpoint
      = [] ∧
    (∀ f, readCache (refreshFeatureFlags st api now).state api.endpoint f
      = none) ∧
    (refreshFeatureFlags st api now).state.lastUpdated = now ∧
    (∀ t f, t ≤ now + ONE_HOUR →
      (getFromCacheDefault (refreshFeatureFlags st api now).state api t
        f).refreshTriggered = false) := by
  refine ⟨?_, ?_, ?_, ?_, ?_⟩
  · simp [refreshFeatureFlags, refreshLand, h]
  · simp [refreshFeatureFlags, refreshLand, h, getExposedExperiments,
      lookupA_insertA_self]
  · intro f
    simp [refreshFeatureFlags, refreshLand, h, readCache, lookupA_insertA_self,
      lookupA]
  · simp [refreshFeatureFlags, refreshLand, h]
  · intro t f ht
    simp only [refreshFeatureFlags, refreshLand, h, getFromCacheDefault,
      getFromCache, refreshDue, decide_eq_false_iff_not]
    omega

/-- C5 witness: a concrete failed-by-value bulk refresh empties the
endpoint's mapping, advances `lastUpdated` to 50, and a read 10 ms later
triggers nothing. -/
theorem C5_witness :
    apiAerr.bulk = .errRes ∧
    (getExposedExperiments (refreshFeatureFlags stStale apiAerr 50).state
        apiAerr.endpoint = [] ∧
      (refreshFeatureFlags stStale apiAerr 50).state.lastUpdated = 50 ∧
      (getFromCacheDefault (refreshFeatureFlags stStale apiAerr 50).state
        apiAerr 60 "f").refreshTriggered = false) :=
  ⟨rfl,
    (C5_bulk_failure stStale apiAerr 50 rfl).2.1,
    (C5_bulk_failure stStale apiAerr 50 rfl).2.2.2.1,
    (C5_bulk_failure stStale apiAerr 50 rfl).2.2.2.2 60 "f" (by decide)⟩

end ClaimsC3C5

section ClaimsC4C9

/-- C4 counterexample: a successful single-flag evaluation populates
(`https://a`, `cody-pro-jetbrains`); a later successful bulk refresh for
the same endpoint replaces the endpoint's whole mapping with one lacking
that flag, so with no reset whatsoever `getFromCache` returns `undefined`
again for an entry that had been populated. -/
theorem C4_counterexample :
    readCache (evaluateFeatureFlag st0 apiA false 0 "cody-pro-jetbrains").state
      "https://a" "cody-pro-jetbrains" = some true ∧
    (refreshFeatureFlags (evaluateFeatureFlag st0 apiA false 0
        "cody-pro-jetbrains").state apiA 9).threw = false ∧
    (getFromCache (refreshFeatureFlags (evaluateFeatureFlag st0 apiA false 0
        "cody-pro-jetbrains").state apiA 9).state 10 "cody-pro-jetbrains"
        "https://a").value = none := by
  refine ⟨by decide, by decide, by decide⟩

/-- C4 amended: `getFromCache` returns `undefined` exactly when the entry
is absent from the current table, and a populated entry survives any
sequence of completed single-flag evaluations — so absent a reset and
absent a bulk refresh for its endpoint it never becomes `undefined`; a
bulk refresh for the endpoint, however, replaces the endpoint's whole
mapping and can remove it. -/
theorem C4_populated_persists (st : FlagState) (calls : List EvalCall)
    (e f : String) (v : Bool) (t : Nat) (h : readCache st e f = some v) :
    readCache (evalMany st calls) e f = some v ∧
    (getFromCache (evalMany st calls) t f e).value = some v := by
  have hp := readCache_evalMany_preserved calls st e f v h
  exact ⟨hp, hp⟩

/-- C4 witness: the entry (`https://a`, `f`) stays populated across an
unrelated evaluation against endpoint `https://b`. -/
theorem C4_witness :
    readCache stStale "https://a" "f" = some true ∧
    (readCache (evalMany stStale [⟨apiB, false, 3, "g"⟩]) "https://a" "f"
        = some true ∧
      (getFromCache (evalMany stStale [⟨apiB, false, 3, "g"⟩]) 4 "f"
        "https://a").value = some true) :=
  ⟨by decide,
    C4_populated_persists stStale [⟨apiB, false, 3, "g"⟩] "https://a" "f" true
      4 (by decide)⟩

/-- C9 counterexample: the evaluator resolves `true` and `evaluateFeatureFlag`
caches and returns it; then a stale read's background bulk refresh fails
with an `Error` value, which empties the endpoint's mapping — no reset
occurred, yet a subsequent `getFromCache` no longer returns `true`. -/
theorem C9_counterexample :
    (evaluateFeatureFlag st0 apiAerr false 0 "cody-pro-jetbrains").value
      = some true ∧
    (refreshFeatureFlags (evaluateFeatureFlag st0 apiAerr false 0
        "cody-pro-jetbrains").state apiAerr (ONE_HOUR + 2)).threw = false ∧
    (getFromCache (refreshFeatureFlags (evaluateFeatureFlag st0 apiAerr false 0
        "cody-pro-jetbrains").state apiAerr (ONE_HOUR + 2)).state
        (ONE_HOUR + 3) "cody-pro-jetbrains" "https://a").value
      ≠ some true := by
  refine ⟨by decide, by decide, by decide⟩

/-- C9 amended: on a cache miss whose remote evaluation resolves `true`,
`evaluateFeatureFlag` resolves `true` and stores it, and every subsequent
`getFromCache` for that (endpoint, flag) returns `true` as long as no
reset and no bulk refresh for that endpoint intervene — in particular
across any further completed single-flag evaluations. -/
theorem C9_round_trip (st : FlagState) (api : ApiClient) (now : Nat)
    (flagName : String) (calls : List EvalCall)
    (hc : readCache st api.endpoint flagName = none)
    (h : api.evalOne flagName = .val true) :
    (evaluateFeatureFlag st api false now flagName).value = some true ∧
    (∀ t, (getFromCache (evaluateFeatureFlag st api false now flagName).state
        t flagName api.endpoint).value = some true) ∧
    (∀ t, (getFromCache (evalMany (evaluateFeatureFlag st api false now
        flagName).state calls) t flagName api.endpoint).value = some true) := by
  have h1 : evaluateFeatureFlag st api false now flagName =
      evalStore st api flagName (refreshDue st now) true := by
    simp [evaluateFeatureFlag, getFromCache, hc, h]
  have h2 : readCache (evaluateFeatureFlag st api false now flagName).state
      api.endpoint flagName = some true := by
    rw [h1]
    simp [evalStore, readCache, lookupA_insertA_self]
  refine ⟨?_, fun t => h2, fun t => ?_⟩
  · rw [h1]; rfl
  · exact readCache_evalMany_preserved calls _ api.endpoint flagName true h2

/-- C9 witness: a concrete miss at (`https://a`, `cody-pro-jetbrains`)
evaluated `true` round-trips through the cache, surviving an unrelated
evaluation against `https://b`. -/
theorem C9_witness :
    readCache st0 apiA.endpoint "cody-pro-jetbrains" = none ∧
    ((evaluateFeatureFlag st0 apiA false 0 "cody-pro-jetbrains").value
        = some true ∧
      (getFromCache (evaluateFeatureFlag st0 apiA false 0
          "cody-pro-jetbrains").state 1 "cody-pro-jetbrains"
          apiA.endpoint).value = some true ∧
      (getFromCache (evalMany (evaluateFeatureFlag st0 apiA false 0
          "cody-pro-jetbrains").state [⟨apiB, false, 2, "g"⟩]) 3
          "cody-pro-jetbrains" apiA.endpoint).value = some true) :=
  ⟨by decide,
    (C9_round_trip st0 apiA 0 "cody-pro-jetbrains" [⟨apiB, false, 2, "g"⟩]
        (by decide) rfl).1,
    (C9_round_trip st0 apiA 0 "cody-pro-jetbrains" [⟨apiB, false, 2, "g"⟩]
        (by decide) rfl).2.1 1,
    (C9_round_trip st0 apiA 0 "cody-pro-jetbrains" [⟨apiB, false, 2, "g"⟩]
        (by decide) rfl).2.2 3⟩

end ClaimsC4C9

section ClaimsC6C7

/-- C6 counterexample: `lastUpdated = 0`, two `getFromCache` calls one
millisecond apart just after the window elapsed, with no intervening
write: each call sees `now - lastUpdated > ONE_HOUR` (nothing advances
`lastUpdated` until a refresh lands) and fires its own bulk fetch — two
attempts, not at most one. -/
theorem C6_counterexample :
    countTriggeredRefreshes st0 apiA "f" [ONE_HOUR + 1, ONE_HOUR + 2] = 2 ∧
    ¬ countTriggeredRefreshes st0 apiA "f" [ONE_HOUR + 1, ONE_HOUR + 2]
        ≤ 1 := by
  refine ⟨by decide, by decide⟩

/-- C6 amended: with no intervening write, the number of background bulk
fetches fired by a sequence of `getFromCache` calls equals the number of
calls made strictly after the staleness window from `lastUpdated` has
elapsed: zero for calls within the window, but one per stale call — the
code does not coalesce concurrent refreshes. -/
theorem C6_trigger_count (st : FlagState) (api : ApiClient) (f : String)
    (times : List Nat) :
    countTriggeredRefreshes st api f times =
      (times.filter (fun t => decide (st.lastUpdated + ONE_HOUR < t))).length
    := by
  induction times with
  | nil => rfl
  | cons t rest ih =>
      simp only [countTriggeredRefreshes, getFromCacheDefault, getFromCache,
        refreshDue, List.filter_cons]
      by_cases h : st.lastUpdated + ONE_HOUR < t
      · have h2 : ONE_HOUR < t - st.lastUpdated := by omega
        simp [h, h2, ih]
        omega
      · have h2 : ¬ ONE_HOUR < t - st.lastUpdated := by omega
        simp [h, h2, ih]

/-- The flag table `syncAuthStatus` leaves behind when it resolves: exactly
the current endpoint's freshly fetched mapping. -/
theorem syncAuthStatus_state_eq (st : FlagState) (api : ApiClient) (now : Nat)
    (h : (syncAuthStatus st api now).threw = false) :
    (syncAuthStatus st api now).state =
      { featureFlags := [(api.endpoint, bulkData api.bulk)]
        lastUpdated := now } := by
  cases hb : api.bulk with
  | thrown =>
      exfalso
      simp [syncAuthStatus, refreshFeatureFlags, refreshLand, hb] at h
  | errRes =>
      simp [syncAuthStatus, refreshFeatureFlags, refreshLand, hb, bulkData,
        insertA]
  | data m =>
      simp [syncAuthStatus, refreshFeatureFlags, refreshLand, hb, bulkData,
        insertA]

/-- C7 counterexample: a bulk refresh captured at endpoint `https://a`
is in flight when `syncAuthStatus` (now at `https://b`) resolves, leaving
`https://a` empty; when the old refresh lands, its result is written back
unconditionally, so the stale endpoint's data reappears in the table. -/
theorem C7_counterexample :
    (syncAuthStatus stStale apiB 3).threw = false ∧
    getExposedExperiments (syncAuthStatus stStale apiB 3).state "https://a"
      = [] ∧
    getExposedExperiments (refreshLand (syncAuthStatus stStale apiB 3).state
        "https://a" (.data [("f", true)]) 4).state "https://a"
      = [("f", true)] ∧
    getExposedExperiments (refreshLand (syncAuthStatus stStale apiB 3).state
        "https://a" (.data [("f", true)]) 4).state "https://a" ≠ [] := by
  refine ⟨by decide, by decide, by decide, by decide⟩

/-- C7 amended: the write-back of `refreshFeatureFlags` is keyed by the
endpoint captured at refresh start but carries no guard against an
intervening reset: whatever the current endpoint is when the fetch lands,
the result is stored under the captured endpoint, so a refresh in flight
across a `syncAuthStatus` reset puts its stale-endpoint mapping back into
the table, alongside the new endpoint's post-reset data. -/
theorem C7_writeback_unguarded (st : FlagState) (api : ApiClient)
    (tSync tLand : Nat) (e1 : String) (m : List (String × Bool))
    (h1 : e1 ≠ api.endpoint)
    (h2 : (syncAuthStatus st api tSync).threw = false) :
    getExposedExperiments (syncAuthStatus st api tSync).state e1 = [] ∧
    getExposedExperiments (refreshLand (syncAuthStatus st api tSync).state e1
        (.data m) tLand).state e1 = m ∧
    getExposedExperiments (refreshLand (syncAuthStatus st api tSync).state e1
        (.data m) tLand).state api.endpoint = bulkData api.bulk := by
  rw [syncAuthStatus_state_eq st api tSync h2]
  refine ⟨?_, ?_, ?_⟩
  · simp [getExposedExperiments, lookupA, Ne.symm h1]
  · simp [refreshLand, getExposedExperiments, lookupA_insertA_self]
  · simp [refreshLand, getExposedExperiments,
      lookupA_insertA_ne _ _ _ _ h1, lookupA]

/-- C7 witness: the concrete unguarded write-back with a reset to
`https://b` and a stale in-flight refresh for `https://a`. -/
theorem C7_witness :
    ("https://a" : String) ≠ apiB.endpoint ∧
    (syncAuthStatus stStale apiB 3).threw = false ∧
    (getExposedExperiments (syncAuthStatus stStale apiB 3).state "https://a"
        = [] ∧
      getExposedExperiments (refreshLand (syncAuthStatus stStale apiB 3).state
        "https://a" (.data [("x", true)]) 4).state "https://a"
        = [("x", true)] ∧
      getExposedExperiments (refreshLand (syncAuthStatus stStale apiB 3).state
        "https://a" (.data [("x", true)]) 4).state apiB.endpoint
        = bulkData apiB.bulk) :=
  ⟨by decide, by decide,
    C7_writeback_unguarded stStale apiB 3 4 "https://a" [("x", true)]
      (by decide) (by decide)⟩

end ClaimsC6C7
